import Mathlib

/-!
Verification of the HuggingFace model inference server (FastAPI + T5ModelService).

Shallow embedding of:
- src/model_service.py : class T5ModelService (load_model, generate_text,
  is_model_ready, get_model_info)
- src/models.py        : pydantic request/response schemas with field bounds
- src/main.py          : HTTP handlers (/health, /health/ready, /model/status,
  /generate)

External effects (the HuggingFace library calls, the wall clock) are modelled
by oracle parameters: each call into the external library is an `Except`
outcome supplied by the oracle, and each clock read is a rational supplied by
the caller. State mutation (`self.x = ...` in Python) is explicit state
passing on `ModelState`.
-/

namespace ModelServer

/-- Opaque handle to a loaded T5 tokenizer (the object returned by
`T5Tokenizer.from_pretrained`). Only identity matters to the service. -/
structure TokHandle where
  id : Nat
deriving DecidableEq, Repr

/-- Opaque handle to a loaded T5 model (the object returned by
`T5ForConditionalGeneration.from_pretrained`, possibly moved to a device). -/
structure ModHandle where
  id : Nat
deriving DecidableEq, Repr

/-- Device selection: `"cuda" if torch.cuda.is_available() else "cpu"`. -/
inductive Device where
  | cuda : Device
  | cpu : Device
deriving DecidableEq, Repr

/-- The mutable state of a `T5ModelService` instance:
fields `model_name`, `model`, `tokenizer`, `is_loaded`, `device`
(src/model_service.py lines 28-33). -/
structure ModelState where
  model_name : String
  model : Option ModHandle
  tokenizer : Option TokHandle
  is_loaded : Bool
  device : Device
deriving DecidableEq, Repr

/-- Constructor `T5ModelService.__init__`: model_name = "t5-small", model = None,
tokenizer = None, is_loaded = False, device from cuda availability. -/
def initState (cudaAvailable : Bool) : ModelState :=
  { model_name := "t5-small"
    model := none
    tokenizer := none
    is_loaded := false
    device := if cudaAvailable then Device.cuda else Device.cpu }

/-- Outcomes of the four external calls made inside `load_model`:
`T5Tokenizer.from_pretrained`, `T5ForConditionalGeneration.from_pretrained`,
`self.model.eval()`, `self.model.to(self.device)`. An `Except.error` models
the call raising an exception with that message. -/
structure LoadOracle where
  tokenizerLoad : Except String TokHandle
  modelLoad : Except String ModHandle
  evalCall : Except String Unit
  toDevice : Except String ModHandle
deriving Repr

/-- Method `T5ModelService.load_model` (src/model_service.py lines 35-67).
The try block assigns `self.tokenizer`, then `self.model`, calls
`self.model.eval()`, reassigns `self.model = self.model.to(self.device)`,
then sets `self.is_loaded = True`. The except block sets
`self.is_loaded = False` and re-raises; it does not touch the handles. -/
def loadModel (s : ModelState) (o : LoadOracle) : Except String Unit × ModelState :=
  match o.tokenizerLoad with
  | Except.error e => (Except.error e, { s with is_loaded := false })
  | Except.ok tok =>
    let s1 := { s with tokenizer := some tok }
    match o.modelLoad with
    | Except.error e => (Except.error e, { s1 with is_loaded := false })
    | Except.ok m =>
      let s2 := { s1 with model := some m }
      match o.evalCall with
      | Except.error e => (Except.error e, { s2 with is_loaded := false })
      | Except.ok _ =>
        match o.toDevice with
        | Except.error e => (Except.error e, { s2 with is_loaded := false })
        | Except.ok m2 =>
          let s3 := { s2 with model := some m2 }
          (Except.ok (), { s3 with is_loaded := true })

/-- Method `T5ModelService.is_model_ready` (src/model_service.py lines 145-147):
`return self.is_loaded and self.model is not None and self.tokenizer is not None`. -/
def is_model_ready (s : ModelState) : Bool :=
  s.is_loaded && s.model.isSome && s.tokenizer.isSome

/-- The dict returned by `T5ModelService.get_model_info`
(src/model_service.py lines 149-156). -/
structure ModelInfo where
  model_name : String
  is_loaded : Bool
  device : Device
  model_ready : Bool
deriving DecidableEq, Repr

/-- Method `T5ModelService.get_model_info`: a pure snapshot of the state fields plus
the derived `model_ready` value. -/
def get_model_info (s : ModelState) : ModelInfo :=
  { model_name := s.model_name
    is_loaded := s.is_loaded
    device := s.device
    model_ready := is_model_ready s }

/-- A raised `fastapi.HTTPException` with its status code and detail. -/
structure HTTPError where
  status_code : Nat
  detail : String
deriving DecidableEq, Repr

/-- Outcomes of the three external calls made inside `generate_text` on
present handles: `tokenizer.encode`, `model.generate`, `tokenizer.decode`.
An `Except.error` models the call raising an exception with that message. -/
structure MLOracle where
  encodeCall : Except String (List Nat)
  generateCall : Except String (List Nat)
  decodeCall : Except String String
deriving Repr

/-- The `self.tokenizer.encode(...)` step: attribute access on `None`
raises; otherwise the outcome of the external call is given by the oracle. -/
def encodeStep (s : ModelState) (o : MLOracle) : Except String (List Nat) :=
  match s.tokenizer with
  | none => Except.error "AttributeError: NoneType object has no attribute encode"
  | some _ => o.encodeCall

/-- The `self.model.generate(...)` step. -/
def generateStep (s : ModelState) (o : MLOracle) : Except String (List Nat) :=
  match s.model with
  | none => Except.error "AttributeError: NoneType object has no attribute generate"
  | some _ => o.generateCall

/-- The `self.tokenizer.decode(...)` step. -/
def decodeStep (s : ModelState) (o : MLOracle) : Except String String :=
  match s.tokenizer with
  | none => Except.error "AttributeError: NoneType object has no attribute decode"
  | some _ => o.decodeCall

/-- Method `T5ModelService.generate_text` (src/model_service.py lines 69-143).
Guard: `if not self.is_loaded: raise HTTPException(503, ...)`. Then
`start_time = time.time()` (clock read `t0`), the try block runs
tokenize, generate, decode; `generation_time = time.time() - start_time`
(clock read `t1`) is taken after decode, so the elapsed time covers the
tokenize-generate-decode sequence only. Any exception in the try block is
re-raised as HTTPException 500 with the original error text. The method
assigns no attribute of `self`, so the state component of the result is
threaded through unchanged on every path. -/
def generate_text (s : ModelState) (input_text : String) (max_length : Int)
    (temperature : ℚ) (num_beams : Int) (o : MLOracle) (t0 t1 : ℚ) :
    Except HTTPError (String × ℚ) × ModelState :=
  if s.is_loaded = false then
    (Except.error
      { status_code := 503
        detail := "Model is not loaded yet. Please wait for model initialization." }, s)
  else
    match encodeStep s o with
    | Except.error e =>
      (Except.error { status_code := 500, detail := "Text generation failed: " ++ e }, s)
    | Except.ok _input_ids =>
      match generateStep s o with
      | Except.error e =>
        (Except.error { status_code := 500, detail := "Text generation failed: " ++ e }, s)
      | Except.ok _outputs =>
        match decodeStep s o with
        | Except.error e =>
          (Except.error { status_code := 500, detail := "Text generation failed: " ++ e }, s)
        | Except.ok generated =>
          (Except.ok (generated, t1 - t0), s)

/-- A raw request body for POST /generate before validation. `none` means the
field is absent from the JSON body; the pydantic defaults then apply. -/
structure RawGenRequest where
  text : Option String
  max_length : Option Int
  temperature : Option ℚ
  num_beams : Option Int
deriving DecidableEq, Repr

/-- A validated `TextGenerationRequest` (src/models.py lines 27-58). -/
structure TextGenerationRequest where
  text : String
  max_length : Int
  temperature : ℚ
  num_beams : Int
deriving DecidableEq, Repr

/-- Field `text`: required, `min_length=1`, `max_length=512`
(src/models.py lines 34-40). Lengths are character counts. -/
def validateText (x : Option String) : Except String String :=
  match x with
  | none => Except.error "text: field required"
  | some t =>
    if t.length < 1 then Except.error "text: string should have at least 1 character"
    else if 512 < t.length then Except.error "text: string should have at most 512 characters"
    else Except.ok t

/-- Field `max_length`: `default=150`, `ge=10`, `le=512`
(src/models.py lines 41-46). -/
def validateMaxLength (x : Option Int) : Except String Int :=
  match x with
  | none => Except.ok 150
  | some ml =>
    if ml < 10 then Except.error "max_length: input should be greater than or equal to 10"
    else if 512 < ml then Except.error "max_length: input should be less than or equal to 512"
    else Except.ok ml

/-- Field `temperature`: `default=1.0`, `ge=0.1`, `le=2.0`
(src/models.py lines 47-52). Floats are modelled as rationals. -/
def validateTemperature (x : Option ℚ) : Except String ℚ :=
  match x with
  | none => Except.ok 1
  | some temp =>
    if temp < 1/10 then Except.error "temperature: input should be greater than or equal to 0.1"
    else if 2 < temp then Except.error "temperature: input should be less than or equal to 2"
    else Except.ok temp

/-- Field `num_beams`: `default=4`, `ge=1`, `le=10`
(src/models.py lines 53-58). -/
def validateNumBeams (x : Option Int) : Except String Int :=
  match x with
  | none => Except.ok 4
  | some nb =>
    if nb < 1 then Except.error "num_beams: input should be greater than or equal to 1"
    else if 10 < nb then Except.error "num_beams: input should be less than or equal to 10"
    else Except.ok nb

/-- Pydantic validation of `TextGenerationRequest` (src/models.py lines
27-58): every provided field must satisfy its bounds, absent optional
fields take their defaults. Performed by FastAPI before the /generate
handler body runs. -/
def validateRequest (raw : RawGenRequest) : Except String TextGenerationRequest :=
  match validateText raw.text with
  | Except.error e => Except.error e
  | Except.ok t =>
    match validateMaxLength raw.max_length with
    | Except.error e => Except.error e
    | Except.ok ml =>
      match validateTemperature raw.temperature with
      | Except.error e => Except.error e
      | Except.ok temp =>
        match validateNumBeams raw.num_beams with
        | Except.error e => Except.error e
        | Except.ok nb =>
          Except.ok { text := t, max_length := ml, temperature := temp, num_beams := nb }

/-- The spec condition "text is empty or longer than 512 characters". -/
def badText (x : Option String) : Bool :=
  match x with
  | some t => decide (t.length = 0) || decide (512 < t.length)
  | none => false

/-- The spec condition "temperature is outside [0.1, 2.0]". -/
def badTemperature (x : Option ℚ) : Bool :=
  match x with
  | some temp => decide (temp < 1/10) || decide (2 < temp)
  | none => false

/-- The spec condition "max_length is outside [10, 512]". -/
def badMaxLength (x : Option Int) : Bool :=
  match x with
  | some ml => decide (ml < 10) || decide (512 < ml)
  | none => false

/-- The spec condition "num_beams is outside [1, 10]". -/
def badNumBeams (x : Option Int) : Bool :=
  match x with
  | some nb => decide (nb < 1) || decide (10 < nb)
  | none => false

/-- The rejection condition stated by the spec for POST /generate bodies:
`text` empty or longer than 512 characters, `temperature` outside
[0.1, 2.0], `max_length` outside [10, 512], or `num_beams` outside
[1, 10]. -/
def claimBadRequest (raw : RawGenRequest) : Bool :=
  badText raw.text || badTemperature raw.temperature
    || badMaxLength raw.max_length || badNumBeams raw.num_beams

/-- Response body of the health endpoints (`HealthResponse` in src/models.py). -/
structure HealthResponse where
  status : String
  timestamp : String
  message : String
deriving DecidableEq, Repr

/-- Response body of GET /model/status (`ModelStatus` in src/models.py). -/
structure ModelStatus where
  model_name : String
  is_loaded : Bool
  status : String
  timestamp : String
deriving DecidableEq, Repr

/-- Response body of a successful POST /generate
(`TextGenerationResponse` in src/models.py). -/
structure TextGenerationResponse where
  generated_text : String
  input_text : String
  model_name : String
  generation_time_seconds : ℚ
  timestamp : String
deriving DecidableEq, Repr

/-- GET /health handler (src/main.py lines 94-110): unconditionally returns
200 with status "healthy". `now` is the `datetime.utcnow().isoformat()`
read. The handler never reads the model service state. -/
def health_check (_s : ModelState) (now : String) : Except HTTPError HealthResponse :=
  Except.ok
    { status := "healthy"
      timestamp := now
      message := "Server is running and accepting requests" }

/-- GET /health/ready handler (src/main.py lines 113-144): 200 "ready" when
`model_service.is_model_ready()`, else HTTPException 503. The inner
try/except re-raises the HTTPException unchanged, and `is_model_ready`
cannot itself raise, so the generic except branch is unreachable. -/
def readiness_check (s : ModelState) (now : String) : Except HTTPError HealthResponse :=
  if is_model_ready s then
    Except.ok
      { status := "ready"
        timestamp := now
        message := "Server and model are ready to accept requests" }
  else
    Except.error
      { status_code := 503
        detail := "Model is not loaded yet. Server is not ready for inference requests." }

/-- GET /model/status handler (src/main.py lines 177-197):
`status = "ready" if model_info["model_ready"] else "loading" if not
model_info["is_loaded"] else "error"`. -/
def get_model_status (s : ModelState) (now : String) : ModelStatus :=
  let model_info := get_model_info s
  let status :=
    if model_info.model_ready then "ready"
    else if model_info.is_loaded = false then "loading"
    else "error"
  { model_name := model_info.model_name
    is_loaded := model_info.is_loaded
    status := status
    timestamp := now }

/-- Result of a POST /generate call at the HTTP level: 200 with a response
body, 422 when pydantic rejects the body before the handler runs, or a
raised HTTPException (503 / 500) propagated from the model service. -/
inductive GenResult where
  | ok200 : TextGenerationResponse → GenResult
  | validationError422 : String → GenResult
  | httpError : HTTPError → GenResult
deriving DecidableEq, Repr

/-- POST /generate (src/main.py lines 200-250 plus FastAPI request
validation). FastAPI validates the body against `TextGenerationRequest`
before the handler runs; on failure it returns 422 and the handler (and so
the model service) is never entered. Otherwise the handler calls
`model_service.generate_text` and wraps the result, echoing `request.text`
and `model_service.model_name`; HTTPExceptions from the service are
re-raised. The Bool records whether `generate_text` was invoked. -/
def generateEndpoint (s : ModelState) (raw : RawGenRequest) (o : MLOracle)
    (t0 t1 : ℚ) (now : String) : GenResult × Bool :=
  match validateRequest raw with
  | Except.error e => (GenResult.validationError422 e, false)
  | Except.ok request =>
    match (generate_text s request.text request.max_length request.temperature
            request.num_beams o t0 t1).1 with
    | Except.error he => (GenResult.httpError he, true)
    | Except.ok (generated, dt) =>
      (GenResult.ok200
        { generated_text := generated
          input_text := request.text
          model_name := s.model_name
          generation_time_seconds := dt
          timestamp := now }, true)

/-- The spec invariant (spec.md section 3): `is_loaded == true` implies both
model and tokenizer handles are non-null. -/
def stateInv (s : ModelState) : Prop :=
  s.is_loaded = true → s.model ≠ none ∧ s.tokenizer ≠ none

instance (s : ModelState) : Decidable (stateInv s) := by
  unfold stateInv
  infer_instance

/-- The query `is_model_ready` viewed as a state-passing operation: the method body
(src/model_service.py lines 145-147) contains no attribute assignment, so
the resulting service state is the receiver unchanged. -/
def isModelReadyOp (s : ModelState) : Bool × ModelState :=
  (is_model_ready s, s)

/-- The query `get_model_info` viewed as a state-passing operation: the method body
(src/model_service.py lines 149-156) contains no attribute assignment. -/
def getModelInfoOp (s : ModelState) : ModelInfo × ModelState :=
  (get_model_info s, s)

/-- Whether a `generate_text` outcome is the service-unavailable condition
(a raised HTTPException with status code 503). -/
def is503 (r : Except HTTPError (String × ℚ)) : Bool :=
  match r with
  | Except.error e => e.status_code == 503
  | Except.ok _ => false

/-! Shared helper lemmas. -/

/-- The method `generate_text` assigns no attribute of the service, so the state
component of its result is the input state, on every path. -/
theorem generate_text_state_eq (s : ModelState) (input : String) (ml : Int)
    (temp : ℚ) (nb : Int) (o : MLOracle) (t0 t1 : ℚ) :
    (generate_text s input ml temp nb o t0 t1).2 = s := by
  obtain ⟨enc, gen, dec⟩ := o
  obtain ⟨mn, m, tok, l, d⟩ := s
  cases l <;> cases m <;> cases tok <;> cases enc <;> cases gen <;> cases dec <;>
    simp [generate_text, encodeStep, generateStep, decodeStep]

/-- A successful `generate_text` reports exactly the difference of the two
clock reads taken around the tokenize-generate-decode sequence. -/
theorem generate_text_ok_time (s : ModelState) (input : String) (ml : Int)
    (temp : ℚ) (nb : Int) (o : MLOracle) (t0 t1 : ℚ) (p : String × ℚ)
    (h : (generate_text s input ml temp nb o t0 t1).1 = Except.ok p) :
    p.2 = t1 - t0 := by
  obtain ⟨enc, gen, dec⟩ := o
  obtain ⟨mn, m, tok, l, d⟩ := s
  cases l <;> cases m <;> cases tok <;> cases enc <;> cases gen <;> cases dec <;>
    simp_all [generate_text, encodeStep, generateStep, decodeStep] <;>
    exact (congrArg Prod.snd h).symm

/-- A `text` value the spec calls invalid is rejected by its field
validation. -/
theorem validateText_error_of_bad (x : Option String) (h : badText x = true) :
    ∃ e, validateText x = Except.error e := by
  cases x with
  | none => simp [badText] at h
  | some t =>
    simp only [badText, Bool.or_eq_true, decide_eq_true_eq] at h
    unfold validateText
    dsimp only
    split_ifs with h1 h2
    · exact ⟨_, rfl⟩
    · exact ⟨_, rfl⟩
    · exfalso; omega

/-- A `temperature` value the spec calls invalid is rejected by its field
validation. -/
theorem validateTemperature_error_of_bad (x : Option ℚ)
    (h : badTemperature x = true) : ∃ e, validateTemperature x = Except.error e := by
  cases x with
  | none => simp [badTemperature] at h
  | some temp =>
    simp only [badTemperature, Bool.or_eq_true, decide_eq_true_eq] at h
    unfold validateTemperature
    dsimp only
    split_ifs with h1 h2
    · exact ⟨_, rfl⟩
    · exact ⟨_, rfl⟩
    · exfalso; rcases h with h | h
      · exact h1 h
      · exact h2 h

/-- A `max_length` value the spec calls invalid is rejected by its field
validation. -/
theorem validateMaxLength_error_of_bad (x : Option Int)
    (h : badMaxLength x = true) : ∃ e, validateMaxLength x = Except.error e := by
  cases x with
  | none => simp [badMaxLength] at h
  | some ml =>
    simp only [badMaxLength, Bool.or_eq_true, decide_eq_true_eq] at h
    unfold validateMaxLength
    dsimp only
    split_ifs with h1 h2
    · exact ⟨_, rfl⟩
    · exact ⟨_, rfl⟩
    · exfalso; omega

/-- A `num_beams` value the spec calls invalid is rejected by its field
validation. -/
theorem validateNumBeams_error_of_bad (x : Option Int)
    (h : badNumBeams x = true) : ∃ e, validateNumBeams x = Except.error e := by
  cases x with
  | none => simp [badNumBeams] at h
  | some nb =>
    simp only [badNumBeams, Bool.or_eq_true, decide_eq_true_eq] at h
    unfold validateNumBeams
    dsimp only
    split_ifs with h1 h2
    · exact ⟨_, rfl⟩
    · exact ⟨_, rfl⟩
    · exfalso; omega

/-- If any field validation rejects, the whole request validation rejects. -/
theorem validateRequest_error_of_field (raw : RawGenRequest)
    (h : (∃ e, validateText raw.text = Except.error e)
       ∨ (∃ e, validateMaxLength raw.max_length = Except.error e)
       ∨ (∃ e, validateTemperature raw.temperature = Except.error e)
       ∨ (∃ e, validateNumBeams raw.num_beams = Except.error e)) :
    ∃ e, validateRequest raw = Except.error e := by
  unfold validateRequest
  cases h1 : validateText raw.text with
  | error e => exact ⟨e, rfl⟩
  | ok t =>
    cases h2 : validateMaxLength raw.max_length with
    | error e => exact ⟨e, rfl⟩
    | ok ml =>
      cases h3 : validateTemperature raw.temperature with
      | error e => exact ⟨e, rfl⟩
      | ok temp =>
        cases h4 : validateNumBeams raw.num_beams with
        | error e => exact ⟨e, rfl⟩
        | ok nb => simp_all

/-- A request the spec calls invalid is rejected by the full validation. -/
theorem validateRequest_error_of_bad (raw : RawGenRequest)
    (h : claimBadRequest raw = true) :
    ∃ e, validateRequest raw = Except.error e := by
  apply validateRequest_error_of_field
  simp only [claimBadRequest, Bool.or_eq_true] at h
  rcases h with ((ht | htemp) | hml) | hnb
  · exact Or.inl (validateText_error_of_bad _ ht)
  · exact Or.inr (Or.inr (Or.inl (validateTemperature_error_of_bad _ htemp)))
  · exact Or.inr (Or.inl (validateMaxLength_error_of_bad _ hml))
  · exact Or.inr (Or.inr (Or.inr (validateNumBeams_error_of_bad _ hnb)))

/-- A value accepted by the `text` field validation is the provided string. -/
theorem validateText_ok (x : Option String) (t : String)
    (h : validateText x = Except.ok t) : x = some t := by
  cases x with
  | none => simp [validateText] at h
  | some u =>
    simp only [validateText] at h
    split_ifs at h <;> simp_all

/-! Claim theorems. -/

/-- Claim C7: for every model-service state (not loaded, loaded, or load
failed), GET /health returns 200 with status "healthy"; its result never
depends on the model state. -/
theorem C7_health_always_healthy (s s2 : ModelState) (now : String) :
    health_check s now =
      Except.ok
        { status := "healthy"
          timestamp := now
          message := "Server is running and accepting requests" }
    ∧ health_check s now = health_check s2 now :=
  ⟨rfl, rfl⟩

/-- Claim C4: `is_model_ready()` returns exactly the derived predicate
(is_loaded AND model handle non-null AND tokenizer handle non-null), and
evaluating it changes no service state. -/
theorem C4_is_model_ready_spec (s : ModelState) :
    (is_model_ready s = true ↔
      (s.is_loaded = true ∧ s.model ≠ none ∧ s.tokenizer ≠ none))
    ∧ (isModelReadyOp s).2 = s
    ∧ (isModelReadyOp s).1 = is_model_ready s := by
  refine ⟨?_, rfl, rfl⟩
  simp [is_model_ready, Bool.and_eq_true, Option.isSome_iff_ne_none, and_assoc]

/-- Claim C3: GET /model/status reports "ready" exactly when the service is
loaded and ready, "loading" exactly when the loaded flag is false, "error"
exactly when the loaded flag is true but readiness is false; the status is
always one of these three values. -/
theorem C3_model_status_trichotomy (s : ModelState) (now : String) :
    ((get_model_status s now).status = "ready" ↔
       (s.is_loaded = true ∧ is_model_ready s = true))
    ∧ ((get_model_status s now).status = "loading" ↔ s.is_loaded = false)
    ∧ ((get_model_status s now).status = "error" ↔
       (s.is_loaded = true ∧ is_model_ready s = false))
    ∧ ((get_model_status s now).status = "ready"
       ∨ (get_model_status s now).status = "loading"
       ∨ (get_model_status s now).status = "error") := by
  obtain ⟨mn, m, tok, l, d⟩ := s
  cases l <;> cases m <;> cases tok <;>
    simp [get_model_status, get_model_info, is_model_ready]

/-- Claim C6: GET /health/ready returns 200 with status "ready" iff
`is_model_ready()` is true, otherwise 503 with an explanatory message; in
particular it is unavailable on the initial (pre-load) state and ready on
the state produced by a successful `load_model`. -/
theorem C6_readiness_iff_ready :
    (∀ (s : ModelState) (now : String),
       (readiness_check s now =
          Except.ok
            { status := "ready"
              timestamp := now
              message := "Server and model are ready to accept requests" }
        ↔ is_model_ready s = true)
       ∧ (is_model_ready s = false →
            readiness_check s now =
              Except.error
                { status_code := 503
                  detail := "Model is not loaded yet. Server is not ready for inference requests." }))
    ∧ (∀ (c : Bool) (now : String),
         readiness_check (initState c) now =
           Except.error
             { status_code := 503
               detail := "Model is not loaded yet. Server is not ready for inference requests." })
    ∧ (∀ (s s2 : ModelState) (o : LoadOracle) (now : String),
         loadModel s o = (Except.ok (), s2) →
         readiness_check s2 now =
           Except.ok
             { status := "ready"
               timestamp := now
               message := "Server and model are ready to accept requests" }) := by
  refine ⟨?_, ?_, ?_⟩
  · intro s now
    cases hr : is_model_ready s <;> simp [readiness_check, hr]
  · intro c now
    cases c <;> rfl
  · intro s s2 o now h
    obtain ⟨tl, mlo, ev, td⟩ := o
    obtain ⟨mn, m, tok, l, d⟩ := s
    cases tl <;> cases mlo <;> cases ev <;> cases td <;>
      simp_all [loadModel] <;>
      simp [readiness_check, is_model_ready, ← h]

/-- Claim C6 witness: on the state produced by a successful load from the
initial state, the readiness endpoint returns ready; on the initial state
itself it returns 503. -/
theorem C6_witness :
    readiness_check
      (loadModel (initState false)
        { tokenizerLoad := Except.ok { id := 0 }
          modelLoad := Except.ok { id := 1 }
          evalCall := Except.ok ()
          toDevice := Except.ok { id := 2 } }).2 "T"
      = Except.ok
          { status := "ready"
            timestamp := "T"
            message := "Server and model are ready to accept requests" }
    ∧ readiness_check (initState false) "T"
      = Except.error
          { status_code := 503
            detail := "Model is not loaded yet. Server is not ready for inference requests." } :=
  ⟨C6_readiness_iff_ready.2.2 (initState false) _
      { tokenizerLoad := Except.ok { id := 0 }
        modelLoad := Except.ok { id := 1 }
        evalCall := Except.ok ()
        toDevice := Except.ok { id := 2 } } "T" (by rfl),
   (C6_readiness_iff_ready.1 (initState false) "T").2 rfl⟩

/-- Claim C1: evaluation of `load_model` at a failing input where the
tokenizer load succeeds and the model load raises. The error propagates and
`is_loaded` ends false with `is_model_ready()` false, but the tokenizer
handle is NOT cleared, contradicting the claim (and the clean-up the
test in the repository asserts): the except block of `load_model` only
resets `is_loaded`. -/
theorem C1_load_failure_keeps_tokenizer :
    (loadModel (initState false)
      { tokenizerLoad := Except.ok { id := 0 }
        modelLoad := Except.error "Model loading failed"
        evalCall := Except.ok ()
        toDevice := Except.ok { id := 1 } }).1
      = Except.error "Model loading failed"
    ∧ (loadModel (initState false)
        { tokenizerLoad := Except.ok { id := 0 }
          modelLoad := Except.error "Model loading failed"
          evalCall := Except.ok ()
          toDevice := Except.ok { id := 1 } }).2.is_loaded = false
    ∧ is_model_ready
        (loadModel (initState false)
          { tokenizerLoad := Except.ok { id := 0 }
            modelLoad := Except.error "Model loading failed"
            evalCall := Except.ok ()
            toDevice := Except.ok { id := 1 } }).2 = false
    ∧ (loadModel (initState false)
        { tokenizerLoad := Except.ok { id := 0 }
          modelLoad := Except.error "Model loading failed"
          evalCall := Except.ok ()
          toDevice := Except.ok { id := 1 } }).2.tokenizer = some { id := 0 } :=
  ⟨rfl, rfl, rfl, rfl⟩

/-- Claim C2 counterexample: on the state with `is_loaded = true` but both
handles null, `is_model_ready()` is false yet `generate_text` does not
raise the 503 service-unavailable condition — the guard tests only
`is_loaded`, so generation proceeds and fails with a 500. This refutes
"fails with 503 if and only if is_ready() is false" over all service
states. -/
theorem C2_counterexample :
    is_model_ready
      { model_name := "t5-small", model := none, tokenizer := none
        is_loaded := true, device := Device.cpu } = false
    ∧ is503
        (generate_text
          { model_name := "t5-small", model := none, tokenizer := none
            is_loaded := true, device := Device.cpu }
          "hello" 150 1 4
          { encodeCall := Except.ok [1]
            generateCall := Except.ok [1]
            decodeCall := Except.ok "out" } 0 1).1 = false
    ∧ (generate_text
        { model_name := "t5-small", model := none, tokenizer := none
          is_loaded := true, device := Device.cpu }
        "hello" 150 1 4
        { encodeCall := Except.ok [1]
          generateCall := Except.ok [1]
          decodeCall := Except.ok "out" } 0 1).1
      = Except.error
          { status_code := 500
            detail := "Text generation failed: AttributeError: NoneType object has no attribute encode" } :=
  ⟨rfl, rfl, rfl⟩

/-- Claim C2 (amended): `generate_text` raises the 503 service-unavailable
condition (with the model-not-loaded message) iff `is_loaded` is false; on
every state satisfying the invariant (is_loaded implies both handles
non-null) — which includes all states the service itself can reach — this
is equivalent to: 503 iff `is_model_ready()` is false. When
`is_model_ready()` is true the call proceeds and never raises 503. -/
theorem C2_generate_unavailable_iff_not_loaded (s : ModelState) (input : String)
    (ml : Int) (temp : ℚ) (nb : Int) (o : MLOracle) (t0 t1 : ℚ) :
    (is503 (generate_text s input ml temp nb o t0 t1).1 = true ↔ s.is_loaded = false)
    ∧ ((generate_text s input ml temp nb o t0 t1).1 =
        Except.error
          { status_code := 503
            detail := "Model is not loaded yet. Please wait for model initialization." }
        ↔ s.is_loaded = false)
    ∧ (stateInv s →
        (is503 (generate_text s input ml temp nb o t0 t1).1 = true
          ↔ is_model_ready s = false))
    ∧ (is_model_ready s = true →
        is503 (generate_text s input ml temp nb o t0 t1).1 = false) := by
  obtain ⟨enc, gen, dec⟩ := o
  obtain ⟨mn, m, tok, l, d⟩ := s
  cases l <;> cases m <;> cases tok <;> cases enc <;> cases gen <;> cases dec <;>
    simp_all [generate_text, encodeStep, generateStep, decodeStep, is503,
      is_model_ready, stateInv]

/-- Claim C2 witness: on the initial state (not loaded, invariant holds),
generate raises the 503 condition; the iff is applied with the invariant
discharged. -/
theorem C2_witness :
    is503
      (generate_text (initState false) "hi" 150 1 4
        { encodeCall := Except.ok [1]
          generateCall := Except.ok [1]
          decodeCall := Except.ok "out" } 0 1).1 = true :=
  ((C2_generate_unavailable_iff_not_loaded (initState false) "hi" 150 1 4
      { encodeCall := Except.ok [1]
        generateCall := Except.ok [1]
        decodeCall := Except.ok "out" } 0 1).2.2.1 (by decide)).mpr rfl

/-- A request accepted by the full validation carries the provided `text`. -/
theorem validateRequest_ok_text (raw : RawGenRequest) (req : TextGenerationRequest)
    (h : validateRequest raw = Except.ok req) : raw.text = some req.text := by
  unfold validateRequest at h
  cases h1 : validateText raw.text with
  | error e => simp [h1] at h
  | ok t =>
    cases h2 : validateMaxLength raw.max_length with
    | error e => simp [h1, h2] at h
    | ok ml =>
      cases h3 : validateTemperature raw.temperature with
      | error e => simp [h1, h2, h3] at h
      | ok temp =>
        cases h4 : validateNumBeams raw.num_beams with
        | error e => simp [h1, h2, h3, h4] at h
        | ok nb =>
          simp only [h1, h2, h3, h4, Except.ok.injEq] at h
          rw [validateText_ok raw.text t h1, ← h]

/-- Claim C8: the invariant (is_loaded implies both handles non-null) holds
in the initial state and is preserved by construction, by `load_model`
whether it succeeds or fails, by `generate_text`, and by the readiness and
info queries. -/
theorem C8_invariant_preserved :
    (∀ c, stateInv (initState c))
    ∧ (∀ (s : ModelState) (o : LoadOracle), stateInv (loadModel s o).2)
    ∧ (∀ (s : ModelState) (input : String) (ml : Int) (temp : ℚ) (nb : Int)
         (o : MLOracle) (t0 t1 : ℚ), stateInv s →
         stateInv (generate_text s input ml temp nb o t0 t1).2)
    ∧ (∀ s : ModelState, stateInv s →
         stateInv (isModelReadyOp s).2 ∧ stateInv (getModelInfoOp s).2) := by
  refine ⟨?_, ?_, ?_, ?_⟩
  · intro c h
    simp [initState] at h
  · intro s o
    obtain ⟨tl, mlo, ev, td⟩ := o
    obtain ⟨mn, m, tok, l, d⟩ := s
    cases tl <;> cases mlo <;> cases ev <;> cases td <;>
      simp [loadModel, stateInv]
  · intro s input ml temp nb o t0 t1 h
    rw [generate_text_state_eq]
    exact h
  · intro s h
    exact ⟨h, h⟩

/-- Claim C8 witness: the invariant holds on the initial state and on the
state left by a `generate_text` call from it. -/
theorem C8_witness :
    stateInv
      (generate_text (initState false) "hi" 150 1 4
        { encodeCall := Except.ok [1]
          generateCall := Except.ok [1]
          decodeCall := Except.ok "out" } 0 1).2 :=
  C8_invariant_preserved.2.2.1 (initState false) "hi" 150 1 4
    { encodeCall := Except.ok [1]
      generateCall := Except.ok [1]
      decodeCall := Except.ok "out" } 0 1 (by decide)

/-- Claim C10: `generate_text` leaves every service state field unchanged on
all paths (success, readiness-guard failure, generation failure), as do the
readiness and info queries; `load_model` is the only state mutator. -/
theorem C10_generate_frame (s : ModelState) (input : String) (ml : Int)
    (temp : ℚ) (nb : Int) (o : MLOracle) (t0 t1 : ℚ) :
    (generate_text s input ml temp nb o t0 t1).2 = s
    ∧ (isModelReadyOp s).2 = s
    ∧ (getModelInfoOp s).2 = s :=
  ⟨generate_text_state_eq s input ml temp nb o t0 t1, rfl, rfl⟩

/-- Claim C5: any POST /generate body with empty or over-long text, or an
out-of-range temperature, max_length or num_beams, is rejected with a 422
validation failure and the model service is never invoked; omitted optional
fields default to max_length=150, temperature=1.0, num_beams=4. -/
theorem C5_validation_rejects_and_defaults (raw : RawGenRequest)
    (s : ModelState) (o : MLOracle) (t0 t1 : ℚ) (now : String) (t : String) :
    (claimBadRequest raw = true →
       (generateEndpoint s raw o t0 t1 now).2 = false
       ∧ ∃ e, (generateEndpoint s raw o t0 t1 now).1 = GenResult.validationError422 e)
    ∧ (1 ≤ t.length → t.length ≤ 512 →
        validateRequest
          { text := some t, max_length := none, temperature := none, num_beams := none }
          = Except.ok { text := t, max_length := 150, temperature := 1, num_beams := 4 }) := by
  constructor
  · intro h
    obtain ⟨e, he⟩ := validateRequest_error_of_bad raw h
    refine ⟨?_, e, ?_⟩ <;> simp [generateEndpoint, he]
  · intro h1 h2
    unfold validateRequest validateText validateMaxLength validateTemperature validateNumBeams
    dsimp only
    split_ifs with ha hb
    · omega
    · omega
    · rfl

/-- Claim C5 witness: the empty-text body is rejected with 422 without
invoking the service, and a text-only body gets the documented defaults. -/
theorem C5_witness :
    ((generateEndpoint (initState false)
        { text := some "", max_length := none, temperature := none, num_beams := none }
        { encodeCall := Except.ok [1]
          generateCall := Except.ok [1]
          decodeCall := Except.ok "out" } 0 0 "T").2 = false
      ∧ ∃ e, (generateEndpoint (initState false)
          { text := some "", max_length := none, temperature := none, num_beams := none }
          { encodeCall := Except.ok [1]
            generateCall := Except.ok [1]
            decodeCall := Except.ok "out" } 0 0 "T").1
          = GenResult.validationError422 e)
    ∧ validateRequest
        { text := some "hi", max_length := none, temperature := none, num_beams := none }
        = Except.ok { text := "hi", max_length := 150, temperature := 1, num_beams := 4 } :=
  ⟨(C5_validation_rejects_and_defaults
      { text := some "", max_length := none, temperature := none, num_beams := none }
      (initState false)
      { encodeCall := Except.ok [1]
        generateCall := Except.ok [1]
        decodeCall := Except.ok "out" } 0 0 "T" "hi").1 (by decide),
   (C5_validation_rejects_and_defaults
      { text := some "", max_length := none, temperature := none, num_beams := none }
      (initState false)
      { encodeCall := Except.ok [1]
        generateCall := Except.ok [1]
        decodeCall := Except.ok "out" } 0 0 "T" "hi").2 (by decide) (by decide)⟩

/-- Claim C9: a successful POST /generate response echoes `input_text`
exactly equal to the submitted text, reports `model_name` equal to the
model name of the service, and a `generation_time_seconds` that is nonnegative
whenever the two clock reads around the tokenize-generate-decode sequence
are in order. -/
theorem C9_generate_response_fields (s : ModelState) (raw : RawGenRequest)
    (o : MLOracle) (t0 t1 : ℚ) (now : String) (t : String)
    (resp : TextGenerationResponse)
    (hmono : t0 ≤ t1) (htext : raw.text = some t)
    (hok : (generateEndpoint s raw o t0 t1 now).1 = GenResult.ok200 resp) :
    resp.input_text = t ∧ resp.model_name = s.model_name
    ∧ 0 ≤ resp.generation_time_seconds := by
  unfold generateEndpoint at hok
  cases hv : validateRequest raw with
  | error e => simp [hv] at hok
  | ok req =>
    cases hg : (generate_text s req.text req.max_length req.temperature
        req.num_beams o t0 t1).1 with
    | error he => simp [hv, hg] at hok
    | ok p =>
      simp only [hv, hg, GenResult.ok200.injEq] at hok
      have hteq : some req.text = some t := by
        rw [← validateRequest_ok_text raw req hv, htext]
      have htime := generate_text_ok_time s req.text req.max_length
        req.temperature req.num_beams o t0 t1 p hg
      refine ⟨?_, ?_, ?_⟩
      · rw [← hok]
        exact Option.some.inj hteq
      · rw [← hok]
      · rw [← hok]
        simp only [htime]
        linarith

/-- Claim C9 witness: a concrete successful generation on a ready state
echoes the input, carries the service model name, and reports elapsed time
1 - 0 = 1 >= 0. -/
theorem C9_witness :
    ({ generated_text := "out", input_text := "hi", model_name := "t5-small"
       generation_time_seconds := 1 - 0, timestamp := "T" } : TextGenerationResponse).input_text = "hi"
    ∧ ({ generated_text := "out", input_text := "hi", model_name := "t5-small"
         generation_time_seconds := 1 - 0, timestamp := "T" } : TextGenerationResponse).model_name
      = ({ model_name := "t5-small", model := some { id := 1 }, tokenizer := some { id := 0 }
           is_loaded := true, device := Device.cpu } : ModelState).model_name
    ∧ (0 : ℚ) ≤
        ({ generated_text := "out", input_text := "hi", model_name := "t5-small"
           generation_time_seconds := 1 - 0, timestamp := "T" } : TextGenerationResponse).generation_time_seconds :=
  C9_generate_response_fields
    { model_name := "t5-small", model := some { id := 1 }, tokenizer := some { id := 0 }
      is_loaded := true, device := Device.cpu }
    { text := some "hi", max_length := none, temperature := none, num_beams := none }
    { encodeCall := Except.ok [1]
      generateCall := Except.ok [1]
      decodeCall := Except.ok "out" } 0 1 "T" "hi"
    { generated_text := "out", input_text := "hi", model_name := "t5-small"
      generation_time_seconds := 1 - 0, timestamp := "T" }
    (by decide) rfl rfl

end ModelServer
